import Mathlib

/-!
# Verification of the owner-portal vendor-API access layer

Shallow embedding of the Hostaway proxy server's core logic:
token-cache lifecycle (`getAuthToken`), vendor request execution and error
classification (`makeApiRequest`), the fallback data provider (listings and
reservations shaping, filtering, pagination), the calendar-route validation,
and the login route.

Modelling conventions:
* Timestamps (`Date.now()`, parsed `Date` values) are integers in
  milliseconds since the epoch; date strings appearing in records are
  represented by their parsed millisecond value.
* JavaScript truthiness of an optional string (`undefined`, `null`, `""`
  are falsy) is `truthyStr`.
* Sample-record `id` fields may be strings or numbers in the local dataset;
  they are modelled by `JsVal`, and JavaScript strict equality (`===`) by
  `jsStrictEq`.
* Fallible operations return `Except`; a thrown `Error` is its message.
-/

namespace OwnerPortal

/-- A JavaScript primitive value as it occurs in the sample-data `id` /
`propertyId` fields: either a string or a (integral) number. -/
inductive JsVal where
  | str (s : String)
  | num (n : Int)
deriving Repr, DecidableEq

/-- Whether a `JsVal` is a string. -/
def JsVal.isStr : JsVal → Bool
  | .str _ => true
  | .num _ => false

/-- JavaScript strict equality (`===`) on `JsVal`: values of different
runtime types are never equal; same-type values compare structurally. -/
def jsStrictEq : JsVal → JsVal → Bool
  | .str a, .str b => a == b
  | .num a, .num b => a == b
  | _, _ => false

/-- JavaScript truthiness of an optional string: `undefined`/`null` and the
empty string are falsy. -/
def truthyStr : Option String → Bool
  | none => false
  | some s => !s.isEmpty

/-- JavaScript `x || d` for an optional string `x` (falsy → default). -/
def jsOrStr : Option String → String → String
  | none, d => d
  | some s, d => if s.isEmpty then d else s

/-! ## Token cache (src/unnamed/part_001, `getAuthToken`, lines 12-56)

Module state: `let authToken = null; let tokenExpires = 0;`. -/

/-- The module-level token cache: `authToken` and `tokenExpires`. -/
structure TokenState where
  authToken : Option String
  tokenExpires : Int
deriving Repr, DecidableEq

/-- Initial module state: `authToken = null`, `tokenExpires = 0`. -/
def initialTokenState : TokenState := ⟨none, 0⟩

/-- Body of a successful response from `POST {base}/accessTokens`. -/
structure ExchangeResponse where
  access_token : String
  expires_in : Int
deriving Repr, DecidableEq

/-- The 5-minute safety margin `5 * 60 * 1000` subtracted from the reported
lifetime when caching (line 44). -/
def safetyMarginMs : Int := 5 * 60 * 1000

/-- Outcome of one `getAuthToken()` call: the returned token (or thrown
error message), the token cache afterwards, and whether a client-credentials
exchange request was issued. -/
structure AuthResult where
  result : Except String String
  state : TokenState
  didExchange : Bool
deriving Repr

/-- `getAuthToken` (part_001 lines 17-56).  `now` is `Date.now()`;
`exchange` is the outcome the token endpoint would give if called.
If `authToken && tokenExpires > Date.now()` the cached token is returned
with no request; otherwise the exchange is performed and, on success,
`authToken = access_token`, `tokenExpires = now + expires_in*1000 -
5*60*1000`; on failure the cache is left unchanged and
`Failed to authenticate with Hostaway API` is thrown. -/
def getAuthToken (st : TokenState) (now : Int)
    (exchange : Except Unit ExchangeResponse) : AuthResult :=
  if truthyStr st.authToken && decide (st.tokenExpires > now) then
    { result := .ok (st.authToken.getD ""), state := st, didExchange := false }
  else
    match exchange with
    | .ok resp =>
        { result := .ok resp.access_token
          state := { authToken := some resp.access_token
                     tokenExpires := now + resp.expires_in * 1000 - safetyMarginMs }
          didExchange := true }
    | .error _ =>
        { result := .error "Failed to authenticate with Hostaway API"
          state := st
          didExchange := true }

/-- A nonempty optional string is truthy. -/
theorem truthy_some {s : String} (h : s ≠ "") : truthyStr (some s) = true := by
  have hf : s.isEmpty = false := by
    cases he : s.isEmpty
    · rfl
    · exact absurd ((String.isEmpty_iff s).mp he) h
  simp [truthyStr, hf]

/-- `getAuthToken` on a valid cache: the cached token is returned unchanged
with no exchange. -/
theorem getAuthToken_hit (st : TokenState) (now : Int)
    (exchange : Except Unit ExchangeResponse) (tok : String)
    (htok : st.authToken = some tok) (hne : tok ≠ "")
    (hexp : st.tokenExpires > now) :
    getAuthToken st now exchange =
      { result := .ok tok, state := st, didExchange := false } := by
  unfold getAuthToken
  rw [htok]
  have hcond : (truthyStr (some tok) && decide (st.tokenExpires > now)) = true := by
    rw [truthy_some hne]
    simp [hexp]
  rw [hcond]
  simp

/-- `getAuthToken` on an invalid cache with a successful exchange: the new
token is cached with the safety margin applied. -/
theorem getAuthToken_miss_ok (st : TokenState) (now : Int)
    (resp : ExchangeResponse)
    (hmiss : (truthyStr st.authToken && decide (st.tokenExpires > now)) = false) :
    getAuthToken st now (.ok resp) =
      { result := .ok resp.access_token
        state := { authToken := some resp.access_token
                   tokenExpires := now + resp.expires_in * 1000 - safetyMarginMs }
        didExchange := true } := by
  unfold getAuthToken
  rw [hmiss]
  simp

/-- `getAuthToken` on an invalid cache with a failing exchange: the error is
thrown and the cache is left unchanged. -/
theorem getAuthToken_miss_error (st : TokenState) (now : Int) (e : Unit)
    (hmiss : (truthyStr st.authToken && decide (st.tokenExpires > now)) = false) :
    getAuthToken st now (.error e) =
      { result := .error "Failed to authenticate with Hostaway API"
        state := st, didExchange := true } := by
  unfold getAuthToken
  rw [hmiss]
  simp

/-- C1: token-cache lifecycle of `getAuthToken`.
(1) Cache hit: with a truthy cached token and `now` strictly before the
recorded expiry, the cached value is returned, no exchange is issued and
the cache is unchanged.  (2) Otherwise an exchange is issued, and a
successful exchange is cached with expiry `now + expires_in·1000 −
5·60·1000` ms (lifetime in seconds minus the 5-minute margin).
(3) Two sequential calls: after a successful exchange at `now`, a second
call strictly before the recorded expiry returns the same token with no
second exchange.  (4) A call made more than `expires_in − 300` seconds
after caching issues a fresh exchange. -/
theorem token_cache_lifecycle
    (st : TokenState) (now now' : Int) (tok : String)
    (exchange exchange' : Except Unit ExchangeResponse)
    (resp : ExchangeResponse) :
    (st.authToken = some tok → tok ≠ "" → st.tokenExpires > now →
      getAuthToken st now exchange =
        { result := .ok tok, state := st, didExchange := false }) ∧
    ((truthyStr st.authToken && decide (st.tokenExpires > now)) = false →
      (getAuthToken st now exchange).didExchange = true ∧
      (exchange = .ok resp →
        (getAuthToken st now exchange).state =
          { authToken := some resp.access_token
            tokenExpires := now + resp.expires_in * 1000 - 5 * 60 * 1000 })) ∧
    ((truthyStr st.authToken && decide (st.tokenExpires > now)) = false →
      exchange = .ok resp → resp.access_token ≠ "" →
      now' < now + resp.expires_in * 1000 - 300 * 1000 →
      getAuthToken (getAuthToken st now exchange).state now' exchange' =
        { result := .ok resp.access_token
          state := (getAuthToken st now exchange).state
          didExchange := false }) ∧
    ((truthyStr st.authToken && decide (st.tokenExpires > now)) = false →
      exchange = .ok resp →
      now' > now + (resp.expires_in - 300) * 1000 →
      (getAuthToken (getAuthToken st now exchange).state now' exchange').didExchange
        = true) := by
  refine ⟨?_, ?_, ?_, ?_⟩
  · intro htok hne hexp
    exact getAuthToken_hit st now exchange tok htok hne hexp
  · intro hmiss
    constructor
    · cases exchange with
      | ok r => rw [getAuthToken_miss_ok st now r hmiss]
      | error e => rw [getAuthToken_miss_error st now e hmiss]
    · intro hok
      subst hok
      rw [getAuthToken_miss_ok st now resp hmiss]
      simp [safetyMarginMs]
  · intro hmiss hok hne hlt
    subst hok
    rw [getAuthToken_miss_ok st now resp hmiss]
    refine getAuthToken_hit _ now' exchange' resp.access_token rfl hne ?_
    show now + resp.expires_in * 1000 - safetyMarginMs > now'
    simp only [safetyMarginMs]
    omega
  · intro hmiss hok hgt
    subst hok
    rw [getAuthToken_miss_ok st now resp hmiss]
    have hexp : ¬ (now + resp.expires_in * 1000 - safetyMarginMs > now') := by
      simp only [safetyMarginMs]
      omega
    have hmiss' : (truthyStr (some resp.access_token) &&
        decide (now + resp.expires_in * 1000 - safetyMarginMs > now')) = false := by
      simp [hexp]
    cases exchange' with
    | ok r => rw [getAuthToken_miss_ok _ now' r hmiss']
    | error e => rw [getAuthToken_miss_error _ now' e hmiss']

/-- Witness for `token_cache_lifecycle` at concrete inputs: a cache holding
token `"t0"` expiring at 2000 queried at 1000 (hit), an empty cache queried
at 1000 with a 600-second exchange (miss, cached expiry
`1000 + 600·1000 − 300·1000 = 301000`), a second call at 300999 (reuse) and
a call at 301001 (fresh exchange). -/
theorem token_cache_lifecycle_witness :
    (getAuthToken ⟨some "t0", 2000⟩ 1000 (.error ()) =
      { result := .ok "t0", state := ⟨some "t0", 2000⟩, didExchange := false }) ∧
    ((getAuthToken ⟨none, 0⟩ 1000 (.ok ⟨"t1", 600⟩)).didExchange = true ∧
      (getAuthToken ⟨none, 0⟩ 1000 (.ok ⟨"t1", 600⟩)).state =
        { authToken := some "t1", tokenExpires := 301000 }) ∧
    (getAuthToken (getAuthToken ⟨none, 0⟩ 1000 (.ok ⟨"t1", 600⟩)).state
        300999 (.error ()) =
      { result := .ok "t1"
        state := (getAuthToken ⟨none, 0⟩ 1000 (.ok ⟨"t1", 600⟩)).state
        didExchange := false }) ∧
    ((getAuthToken (getAuthToken ⟨none, 0⟩ 1000 (.ok ⟨"t1", 600⟩)).state
        301001 (.error ())).didExchange = true) := by
  have h := token_cache_lifecycle ⟨some "t0", 2000⟩ 1000 300999 "t0"
    (.error ()) (.error ()) ⟨"t1", 600⟩
  have h' := token_cache_lifecycle ⟨none, 0⟩ 1000 300999 "t0"
    (.ok ⟨"t1", 600⟩) (.error ()) ⟨"t1", 600⟩
  have h'' := token_cache_lifecycle ⟨none, 0⟩ 1000 301001 "t0"
    (.ok ⟨"t1", 600⟩) (.error ()) ⟨"t1", 600⟩
  refine ⟨h.1 rfl (by decide) (by decide), ?_, ?_, ?_⟩
  · have hb := h'.2.1 (by decide)
    exact ⟨hb.1, by simpa using hb.2 rfl⟩
  · exact h'.2.2.1 (by decide) rfl (by decide) (by decide)
  · exact h''.2.2.2 (by decide) rfl (by decide)

/-! ## Vendor request executor (src/unnamed/part_001, `makeApiRequest`,
lines 66-138) -/

/-- How the outbound axios call to the vendor ends: a 2xx response with a
body, a non-2xx response with a status code and an optional vendor-supplied
`data.message`, a request sent with no response received, or an error while
setting up the request. -/
inductive VendorOutcome where
  | success (body : String)
  | httpError (status : Nat) (vendorMessage : Option String)
  | noResponse
  | setupError (msg : String)
deriving Repr

/-- Error message thrown on a 401 response (line 112). -/
def authFailedMsg : String := "Authentication failed. Please try again."

/-- Error message thrown on a 404 response (line 115). -/
def notFoundMsg (endpoint : String) : String := "Resource not found: " ++ endpoint

/-- Error message thrown on a 429 response (line 118). -/
def rateLimitMsg : String := "API rate limit exceeded. Please try again later."

/-- Error message thrown on 500/502/503/504 (line 124). -/
def unavailableMsg : String := "Hostaway API is currently unavailable. Please try again later."

/-- Generic message for an unmapped status (line 128). -/
def genericStatusMsg (status : Nat) : String :=
  "API request failed with status " ++ toString status

/-- Error message when the request was sent but no response was received
(line 132). -/
def noResponseMsg : String := "No response received from API. Please check your network connection."

/-- The `switch (error.response.status)` block of `makeApiRequest`
(lines 107-129): maps a non-2xx status (and the vendor's optional
`data.message`) to the thrown message and the token cache afterwards.
Only the 401 case mutates the cache (`authToken = null; tokenExpires = 0`). -/
def classifyHttpError (endpoint : String) (status : Nat)
    (vendorMessage : Option String) (st : TokenState) : String × TokenState :=
  if status = 401 then (authFailedMsg, ⟨none, 0⟩)
  else if status = 404 then (notFoundMsg endpoint, st)
  else if status = 429 then (rateLimitMsg, st)
  else if status = 500 ∨ status = 502 ∨ status = 503 ∨ status = 504 then
    (unavailableMsg, st)
  else (jsOrStr vendorMessage (genericStatusMsg status), st)

/-- Outcome of one `makeApiRequest` call: the returned body or thrown error
message, the token cache afterwards, and whether a token exchange was
issued. -/
structure ApiResult where
  result : Except String String
  state : TokenState
  didExchange : Bool
deriving Repr

/-- `makeApiRequest` (part_001 lines 66-138): acquires a token via
`getAuthToken` (whose thrown error, matching neither `error.response` nor
`error.request`, is rethrown by the final `else`), then dispatches on the
vendor call's outcome; non-2xx statuses go through the `switch` block, a
sent-but-unanswered request throws the connectivity message, and a setup
error is rethrown as-is. -/
def makeApiRequest (st : TokenState) (now : Int)
    (exchange : Except Unit ExchangeResponse) (outcome : VendorOutcome)
    (endpoint : String) : ApiResult :=
  let auth := getAuthToken st now exchange
  match auth.result with
  | .error e =>
      { result := .error e, state := auth.state, didExchange := auth.didExchange }
  | .ok _tok =>
      match outcome with
      | .success body =>
          { result := .ok body, state := auth.state, didExchange := auth.didExchange }
      | .httpError status m =>
          let c := classifyHttpError endpoint status m auth.state
          { result := .error c.1, state := c.2, didExchange := auth.didExchange }
      | .noResponse =>
          { result := .error noResponseMsg, state := auth.state
            didExchange := auth.didExchange }
      | .setupError msg =>
          { result := .error msg, state := auth.state
            didExchange := auth.didExchange }

/-- C2: a vendor request answered with HTTP 401 clears the process-wide
token cache (`authToken = null`, `tokenExpires = 0`) and throws the
authentication-failed error; consequently the next `getAuthToken` call —
at any time and whatever the old token's nominal expiry was — issues a
fresh exchange. -/
theorem unauthorized_clears_token_cache
    (st : TokenState) (now now' : Int)
    (exchange exchange' : Except Unit ExchangeResponse)
    (endpoint : String) (m : Option String) (t : String)
    (hauth : (getAuthToken st now exchange).result = .ok t) :
    makeApiRequest st now exchange (.httpError 401 m) endpoint =
      { result := .error authFailedMsg, state := ⟨none, 0⟩
        didExchange := (getAuthToken st now exchange).didExchange } ∧
    (getAuthToken ⟨none, 0⟩ now' exchange').didExchange = true := by
  constructor
  · simp only [makeApiRequest]
    rw [hauth]
    simp [classifyHttpError]
  · have hmiss : (truthyStr (none : Option String) && decide ((0 : Int) > now')) = false := by
      simp [truthyStr]
    cases exchange' with
    | ok r => rw [show (⟨none, 0⟩ : TokenState) = ⟨none, 0⟩ from rfl,
        getAuthToken_miss_ok ⟨none, 0⟩ now' r hmiss]
    | error e => rw [getAuthToken_miss_error ⟨none, 0⟩ now' e hmiss]

/-- Witness for `unauthorized_clears_token_cache`: a valid cache
`{ token := "tok", expiry := 5000 }` at time 1000 hit by a 401. -/
theorem unauthorized_clears_token_cache_witness :
    (getAuthToken ⟨some "tok", 5000⟩ 1000 (.error ())).result = .ok "tok" ∧
    makeApiRequest ⟨some "tok", 5000⟩ 1000 (.error ()) (.httpError 401 none) "/listings" =
      { result := .error authFailedMsg, state := ⟨none, 0⟩
        didExchange := (getAuthToken ⟨some "tok", 5000⟩ 1000 (.error ())).didExchange } ∧
    (getAuthToken ⟨none, 0⟩ 99999999 (.error ())).didExchange = true := by
  have h := unauthorized_clears_token_cache ⟨some "tok", 5000⟩ 1000 99999999
    (.error ()) (.error ()) "/listings" none "tok" rfl
  exact ⟨rfl, h.1, h.2⟩

/-- Strings with different first characters are different. -/
theorem string_ne_of_head {a b : String}
    (h : a.data.head? ≠ b.data.head?) : a ≠ b := by
  intro he
  exact h (by rw [he])

/-- C3: classification of failed vendor requests in `makeApiRequest`.
404 maps to the resource-not-found message naming the endpoint; 429 maps
to the rate-limit message; 500, 502, 503 and 504 map to the
vendor-unavailable message; any other status outside the mapped set maps
to the vendor-supplied message or, when that is absent or empty, the
generic message naming the status; a sent-but-unanswered request maps to
the connectivity message, which differs from every HTTP-status-class
message. -/
theorem vendor_error_classification
    (endpoint : String) (st : TokenState) (m : Option String) (s : Nat) :
    classifyHttpError endpoint 404 m st = (notFoundMsg endpoint, st) ∧
    classifyHttpError endpoint 429 m st = (rateLimitMsg, st) ∧
    (s = 500 ∨ s = 502 ∨ s = 503 ∨ s = 504 →
      classifyHttpError endpoint s m st = (unavailableMsg, st)) ∧
    (s ∉ ([401, 404, 429, 500, 502, 503, 504] : List Nat) →
      classifyHttpError endpoint s m st =
        (jsOrStr m (genericStatusMsg s), st)) ∧
    (∀ (st2 : TokenState) (now : Int) (ex : Except Unit ExchangeResponse)
        (t : String), (getAuthToken st2 now ex).result = .ok t →
      (makeApiRequest st2 now ex .noResponse endpoint).result =
        .error noResponseMsg) ∧
    (noResponseMsg ≠ authFailedMsg ∧ noResponseMsg ≠ rateLimitMsg ∧
      noResponseMsg ≠ unavailableMsg ∧ noResponseMsg ≠ notFoundMsg endpoint ∧
      noResponseMsg ≠ genericStatusMsg s) := by
  refine ⟨by simp [classifyHttpError], by simp [classifyHttpError], ?_, ?_, ?_, ?_⟩
  · intro hs
    have h401 : s ≠ 401 := by rcases hs with h | h | h | h <;> omega
    have h404 : s ≠ 404 := by rcases hs with h | h | h | h <;> omega
    have h429 : s ≠ 429 := by rcases hs with h | h | h | h <;> omega
    simp [classifyHttpError, h401, h404, h429, hs]
  · intro hs
    simp only [List.mem_cons, List.not_mem_nil, or_false] at hs
    push_neg at hs
    obtain ⟨h401, h404, h429, h500, h502, h503, h504⟩ := hs
    have h5xx : ¬ (s = 500 ∨ s = 502 ∨ s = 503 ∨ s = 504) := by
      push_neg
      exact ⟨h500, h502, h503, h504⟩
    simp [classifyHttpError, h401, h404, h429, h5xx]
  · intro st2 now ex t hauth
    simp only [makeApiRequest]
    rw [hauth]
  · refine ⟨by decide, by decide, by decide, ?_, ?_⟩
    · apply string_ne_of_head
      have hl : noResponseMsg.data.head? = some 'N' := rfl
      have hr : (notFoundMsg endpoint).data.head? = some 'R' := by
        rw [notFoundMsg, String.data_append]
        rfl
      rw [hl, hr]
      decide
    · apply string_ne_of_head
      have hl : noResponseMsg.data.head? = some 'N' := rfl
      have hr : (genericStatusMsg s).data.head? = some 'A' := by
        rw [genericStatusMsg, String.data_append]
        rfl
      rw [hl, hr]
      decide

/-- Witness for `vendor_error_classification` at endpoint `"/listings"`,
vendor message `"boom"` and unmapped status 418. -/
theorem vendor_error_classification_witness :
    classifyHttpError "/listings" 404 (some "boom") initialTokenState =
      (notFoundMsg "/listings", initialTokenState) ∧
    classifyHttpError "/listings" 429 (some "boom") initialTokenState =
      (rateLimitMsg, initialTokenState) ∧
    classifyHttpError "/listings" 502 (some "boom") initialTokenState =
      (unavailableMsg, initialTokenState) ∧
    classifyHttpError "/listings" 418 (some "boom") initialTokenState =
      (jsOrStr (some "boom") (genericStatusMsg 418), initialTokenState) ∧
    (makeApiRequest ⟨some "tok", 5000⟩ 1000 (.error ()) .noResponse "/listings").result =
      .error noResponseMsg ∧
    noResponseMsg ≠ notFoundMsg "/listings" := by
  have h418 := vendor_error_classification "/listings" initialTokenState (some "boom") 418
  have h502 := vendor_error_classification "/listings" initialTokenState (some "boom") 502
  exact ⟨h418.1, h418.2.1, h502.2.2.1 (by omega), h418.2.2.2.1 (by decide),
    h418.2.2.2.2.1 ⟨some "tok", 5000⟩ 1000 (.error ()) "tok" rfl,
    h418.2.2.2.2.2.2.2.2.1⟩

/-! ## Fallback data provider: listings (src/unnamed/part_001,
`router.get('/listings')`, lines 144-175) -/

/-- A property record of the local sample dataset (`sampleData.properties`).
The `address` is an optional single full-address string (the shaping uses
`prop.address?.split(',')`). -/
structure SampleProperty where
  id : JsVal
  name : String
  address : Option String
deriving Repr, DecidableEq

/-- `prop.address?.split(',')[i]?.trim() || ''`: the `i`-th comma-separated
segment of the address, trimmed, or the empty string when the address or
the segment is absent. -/
def addrSegment (address : Option String) (i : Nat) : String :=
  match address with
  | none => ""
  | some a => (((a.splitOn ",").get? i).map String.trim).getD ""

/-- The address object of a shaped fallback listing. -/
structure ShapedAddress where
  full : Option String
  city : String
  country : String
deriving Repr, DecidableEq

/-- A fallback listing as shaped by the `/listings` handler (lines 160-168). -/
structure ShapedListing where
  id : JsVal
  name : String
  address : ShapedAddress
deriving Repr, DecidableEq

/-- The per-property shaping of the `/listings` fallback (lines 160-168):
`{ id, name, address: { full, city: segment 1, country: segment 2 } }`. -/
def shapeListing (p : SampleProperty) : ShapedListing :=
  { id := p.id
    name := p.name
    address := { full := p.address
                 city := addrSegment p.address 1
                 country := addrSegment p.address 2 } }

/-- Response of the `/listings` route handler: a 200 JSON body (either the
vendor body passed through or the shaped fallback listings) or the error
handed to `next(error)`. -/
inductive ListingsResponse where
  | vendorBody (body : String)
  | fallbackBody (listings : List ShapedListing)
  | nextError (message : String)
deriving Repr

/-- The `/listings` route handler (lines 144-175): on vendor success the
body is returned as-is; on vendor failure the sample properties are shaped
and returned with HTTP 200; if loading or shaping the sample data itself
throws, the original vendor error goes to `next`. -/
def listingsHandler (vendor : Except String String)
    (sample : Except String (List SampleProperty)) : ListingsResponse :=
  match vendor with
  | .ok data => .vendorBody data
  | .error err =>
      match sample with
      | .ok props => .fallbackBody (props.map shapeListing)
      | .error _fallbackErr => .nextError err

/-- C4: fallback masking on `GET /api/listings`.  When the vendor call
fails with any error: if the sample-data fallback succeeds, the response is
HTTP 200 with the locally-shaped sample listings (the vendor error is fully
masked); if the fallback itself throws, the original vendor error — not the
fallback error — is surfaced. -/
theorem listings_fallback_masking
    (e : String) (sample : Except String (List SampleProperty)) :
    (∀ props, sample = .ok props →
      listingsHandler (.error e) sample = .fallbackBody (props.map shapeListing)) ∧
    (∀ f, sample = .error f →
      listingsHandler (.error e) sample = .nextError e) := by
  constructor
  · intro props hs
    subst hs
    rfl
  · intro f hs
    subst hs
    rfl

/-- Witness for `listings_fallback_masking`: a vendor error `"down"` masked
by one sample property, and a double failure surfacing `"down"` rather than
the fallback error `"bad dataset"`. -/
theorem listings_fallback_masking_witness :
    listingsHandler (.error "down")
        (.ok [⟨JsVal.num 7, "Cabin", none⟩]) =
      .fallbackBody [⟨JsVal.num 7, "Cabin", ⟨none, "", ""⟩⟩] ∧
    listingsHandler (.error "down") (.error "bad dataset") = .nextError "down" := by
  have h1 := (listings_fallback_masking "down"
    (.ok [⟨JsVal.num 7, "Cabin", none⟩])).1 [⟨JsVal.num 7, "Cabin", none⟩] rfl
  have h2 := (listings_fallback_masking "down" (.error "bad dataset")).2 "bad dataset" rfl
  constructor
  · rw [h1]
    rfl
  · exact h2

/-! ## Fallback data provider: reservations (src/unnamed/part_001,
lines 201-294 and 430-489; src/api.js, lines 148-269)

Date strings are represented by their parsed `Date` value in milliseconds
since the epoch; prices and fees are integral JavaScript numbers. -/

/-- `calculateNights` (part_001 lines 214-219 and 483-488):
`Math.ceil(Math.abs(end − start) / (1000*60*60*24))` for integral
millisecond timestamps, via `⌈a/b⌉ = (a + b − 1) / b`. -/
def calculateNights (checkIn checkOut : Int) : Nat :=
  ((checkOut - checkIn).natAbs + 86400000 - 1) / 86400000

/-- The number of nights as the specification states it:
`ceil(|checkOut − checkIn| / 1 day)` as a ceiling of an exact division. -/
def specCeilNights (checkIn checkOut : Int) : ℤ :=
  ⌈(((checkOut - checkIn).natAbs : ℚ)) / 86400000⌉

/-- A reservation record of the local sample dataset
(`sampleData.reservations`). -/
structure SampleReservation where
  id : JsVal
  propertyId : JsVal
  guestName : String
  checkIn : Int
  checkOut : Int
  pricePerNight : Int
  cleaningFee : Int
  amenities : Int
  extraFees : Int
  bookingSource : String
  status : String
deriving Repr, DecidableEq

/-- A fallback reservation in vendor API format, as produced by the
reservations routes. -/
structure ApiReservation where
  id : JsVal
  listingId : JsVal
  guestName : String
  checkInDate : Int
  checkOutDate : Int
  basePrice : Int
  cleaningFee : Int
  amenitiesFee : Int
  extraFees : Int
  totalPrice : Int
  source : String
  status : String
deriving Repr, DecidableEq

/-- The sample-to-API reservation shaping (part_001 lines 222-236, and
identically the by-id response body at lines 270-286):
`totalPrice = pricePerNight * calculateNights(checkIn, checkOut) +
cleaningFee + amenities + extraFees`. -/
def shapeReservation (r : SampleReservation) : ApiReservation :=
  { id := r.id
    listingId := r.propertyId
    guestName := r.guestName
    checkInDate := r.checkIn
    checkOutDate := r.checkOut
    basePrice := r.pricePerNight
    cleaningFee := r.cleaningFee
    amenitiesFee := r.amenities
    extraFees := r.extraFees
    totalPrice := r.pricePerNight * (calculateNights r.checkIn r.checkOut : Int) +
      r.cleaningFee + r.amenities + r.extraFees
    source := r.bookingSource
    status := r.status }

/-- The nights computation of `getReservationById` in src/api.js
(lines 248-249): plain division
`(new Date(checkOut) − new Date(checkIn)) / (1000*60*60*24)` with no
`Math.ceil` and no `Math.abs`. -/
def apiJsByIdNights (checkIn checkOut : Int) : ℚ :=
  ((checkOut : ℚ) - (checkIn : ℚ)) / 86400000

/-- `totalPrice` of the src/api.js `getReservationById` fallback
(lines 262-263): `pricePerNight * nights + cleaningFee + amenities +
extraFees` with the plain-division nights. -/
def apiJsByIdTotalPrice (r : SampleReservation) : ℚ :=
  (r.pricePerNight : ℚ) * apiJsByIdNights r.checkIn r.checkOut +
    (r.cleaningFee : ℚ) + (r.amenities : ℚ) + (r.extraFees : ℚ)

/-- Modelled from the spec: the sample dataset (`src/sampleData`) is not
among the repository files, so this is the specification's example
reservation — basePrice 100, checkIn 2024-01-01, checkOut 2024-01-04
(date-only strings, hence whole-day millisecond timestamps), cleaningFee
50, amenitiesFee 20, extraFees 10. -/
def exampleReservation : SampleReservation :=
  { id := .str "r1", propertyId := .str "p1", guestName := "Guest"
    checkIn := 1704067200000, checkOut := 1704326400000
    pricePerNight := 100, cleaningFee := 50, amenities := 20, extraFees := 10
    bookingSource := "direct", status := "confirmed" }

/-- `(a + b − 1) / b` equals the rational ceiling `⌈a / b⌉` for naturals. -/
theorem nat_ceilDiv (a b : ℕ) (hb : 0 < b) :
    (((a + b - 1) / b : ℕ) : ℤ) = ⌈(a : ℚ) / (b : ℚ)⌉ := by
  rw [eq_comm, Int.ceil_eq_iff]
  obtain ⟨m, hm⟩ : ∃ m, m = (a + b - 1) / b * b := ⟨_, rfl⟩
  have h3 : m + (a + b - 1) % b = a + b - 1 := by
    rw [hm]
    exact Nat.div_add_mod' _ _
  have h4 : (a + b - 1) % b < b := Nat.mod_lt _ hb
  have key1 : a ≤ m := by omega
  have key2 : m < a + b := by omega
  have hbq : (0 : ℚ) < (b : ℚ) := by exact_mod_cast hb
  have hmq : (((a + b - 1) / b : ℕ) : ℚ) * (b : ℚ) = (m : ℚ) := by
    exact_mod_cast hm.symm
  constructor
  · rw [lt_div_iff₀ hbq, Int.cast_natCast]
    have hkey2 : (m : ℚ) < (a : ℚ) + b := by exact_mod_cast key2
    have expand : ((((a + b - 1) / b : ℕ) : ℚ) - 1) * b =
        (((a + b - 1) / b : ℕ) : ℚ) * b - b := by ring
    rw [expand, hmq]
    linarith
  · rw [div_le_iff₀ hbq, Int.cast_natCast, hmq]
    exact_mod_cast key1

/-- C5: derived total price of fallback reservations.
(1) `calculateNights` computes exactly `ceil(|checkOut − checkIn| / 1 day)`.
(2) Every reservation shaped by the fallback provider (list endpoint and
by-id endpoint of part_001) has
`totalPrice = basePrice · ceil-nights + cleaningFee + amenitiesFee +
extraFees`.  (3) The src/api.js by-id fallback, which divides without
ceiling, agrees with that value whenever the stay spans a nonnegative whole
number of days — as the date-only sample records do.  (4) The spec's
example (basePrice 100, 2024-01-01 → 2024-01-04, fees 50/20/10) yields
380. -/
theorem fallback_total_price_derivation (r : SampleReservation) :
    ((calculateNights r.checkIn r.checkOut : ℤ) =
      specCeilNights r.checkIn r.checkOut) ∧
    (((shapeReservation r).totalPrice : ℤ) =
      r.pricePerNight * specCeilNights r.checkIn r.checkOut +
        r.cleaningFee + r.amenities + r.extraFees) ∧
    (r.checkIn ≤ r.checkOut → (86400000 : ℤ) ∣ (r.checkOut - r.checkIn) →
      apiJsByIdTotalPrice r = ((shapeReservation r).totalPrice : ℚ)) ∧
    (shapeReservation exampleReservation).totalPrice = 380 := by
  have hnights : (calculateNights r.checkIn r.checkOut : ℤ) =
      specCeilNights r.checkIn r.checkOut := by
    unfold calculateNights specCeilNights
    exact nat_ceilDiv ((r.checkOut - r.checkIn).natAbs) 86400000 (by norm_num)
  refine ⟨hnights, ?_, ?_, ?_⟩
  · show r.pricePerNight * (calculateNights r.checkIn r.checkOut : Int) +
      r.cleaningFee + r.amenities + r.extraFees = _
    rw [hnights]
  · intro hle hdvd
    obtain ⟨k, hk⟩ := hdvd
    have hk0 : 0 ≤ k := by omega
    have hnat : (r.checkOut - r.checkIn).natAbs = 86400000 * k.toNat := by
      omega
    have hcn : calculateNights r.checkIn r.checkOut = k.toNat := by
      unfold calculateNights
      rw [hnat]
      omega
    have hkq : (r.checkOut : ℚ) - (r.checkIn : ℚ) = 86400000 * (k : ℚ) := by
      exact_mod_cast hk
    have hknat : ((k.toNat : ℤ) : ℚ) = (k : ℚ) := by
      rw [Int.toNat_of_nonneg hk0]
    show (r.pricePerNight : ℚ) * apiJsByIdNights r.checkIn r.checkOut +
        (r.cleaningFee : ℚ) + (r.amenities : ℚ) + (r.extraFees : ℚ) = _
    unfold apiJsByIdNights
    rw [hkq]
    show _ = ((r.pricePerNight * (calculateNights r.checkIn r.checkOut : Int) +
      r.cleaningFee + r.amenities + r.extraFees : ℤ) : ℚ)
    rw [hcn]
    push_cast [hknat]
    field_simp
  · rfl

/-- Witness for `fallback_total_price_derivation` at the spec's example
reservation (whole-day stay of 3 days). -/
theorem fallback_total_price_derivation_witness :
    exampleReservation.checkIn ≤ exampleReservation.checkOut ∧
    (86400000 : ℤ) ∣ (exampleReservation.checkOut - exampleReservation.checkIn) ∧
    apiJsByIdTotalPrice exampleReservation =
      ((shapeReservation exampleReservation).totalPrice : ℚ) ∧
    (shapeReservation exampleReservation).totalPrice = 380 := by
  have h := fallback_total_price_derivation exampleReservation
  refine ⟨by decide, ⟨3, by decide⟩, ?_, h.2.2.2⟩
  exact h.2.2.1 (by decide) ⟨3, by decide⟩

/-! ## Reservation filtering (src/unnamed/part_001, `filterReservations`,
lines 433-464) -/

/-- The query parameters consumed by the reservations fallback.  String
parameters are optional strings; date-valued parameters are represented by
their parsed `Date` timestamp (absent or empty parameter ↦ `none`). -/
structure ReservationsQuery where
  listingId : Option String
  arrivalStartDate : Option Int
  departureEndDate : Option Int
  status : Option String
  search : Option String
deriving Repr

/-- JavaScript `toLowerCase()` modelled at the character level: the
lower-cased character sequence of a string. -/
def lowerData (s : String) : List Char :=
  s.data.map Char.toLower

/-- JavaScript `haystack.includes(needle)` on character lists: some suffix
of the haystack starts with the needle. -/
def containsSub : List Char → List Char → Bool
  | [], needle => needle.isEmpty
  | hay@(_ :: t), needle => needle.isPrefixOf hay || containsSub t needle

/-- `filterReservations` (part_001 lines 433-464): five optional filters
applied in sequence — strict-equality listing id, check-in on or after
`arrivalStartDate`, check-out on or before `departureEndDate`, exact
status, and case-insensitive guest-name substring search. -/
def filterReservations (reservations : List ApiReservation)
    (q : ReservationsQuery) : List ApiReservation :=
  let f1 := if truthyStr q.listingId then
      reservations.filter (fun r => jsStrictEq r.listingId (.str (q.listingId.getD "")))
    else reservations
  let f2 := match q.arrivalStartDate with
    | some d => f1.filter (fun r => decide (r.checkInDate ≥ d))
    | none => f1
  let f3 := match q.departureEndDate with
    | some d => f2.filter (fun r => decide (r.checkOutDate ≤ d))
    | none => f2
  let f4 := if truthyStr q.status then
      f3.filter (fun r => r.status == q.status.getD "")
    else f3
  let f5 := if truthyStr q.search then
      f4.filter (fun r =>
        containsSub (lowerData r.guestName) (lowerData (q.search.getD "")))
    else f4
  f5

/-- C6: the fallback reservation filters act as conjunctive predicates.
A reservation is in the filtered output iff it is in the input and passes
every applicable filter: strict listing-id equality when `listingId` is
truthy, check-in ≥ `arrivalStartDate` when present, check-out ≤
`departureEndDate` when present, exact status equality when `status` is
truthy, and case-insensitive guest-name substring match when `search` is
truthy; moreover the output is a sublist of the input (each stage only
removes records, in order). -/
theorem filter_reservations_conjunctive (rs : List ApiReservation)
    (q : ReservationsQuery) (r : ApiReservation) :
    (r ∈ filterReservations rs q ↔ r ∈ rs ∧
      (truthyStr q.listingId = true →
        jsStrictEq r.listingId (.str (q.listingId.getD "")) = true) ∧
      (∀ d, q.arrivalStartDate = some d → d ≤ r.checkInDate) ∧
      (∀ d, q.departureEndDate = some d → r.checkOutDate ≤ d) ∧
      (truthyStr q.status = true → r.status = q.status.getD "") ∧
      (truthyStr q.search = true →
        containsSub (lowerData r.guestName)
          (lowerData (q.search.getD "")) = true)) ∧
    (filterReservations rs q).Sublist rs := by
  constructor
  · unfold filterReservations
    cases hL : truthyStr q.listingId <;>
      cases hA : q.arrivalStartDate <;>
      cases hD : q.departureEndDate <;>
      cases hS : truthyStr q.status <;>
      cases hSe : truthyStr q.search <;>
      simp [List.mem_filter, decide_eq_true_eq, and_assoc] <;>
      tauto
  · unfold filterReservations
    cases hL : truthyStr q.listingId <;>
      cases hA : q.arrivalStartDate <;>
      cases hD : q.departureEndDate <;>
      cases hS : truthyStr q.status <;>
      cases hSe : truthyStr q.search <;>
      dsimp only <;>
      (repeat refine (List.filter_sublist _).trans ?_) <;>
      exact List.Sublist.refl _

/-- Witness for `filter_reservations_conjunctive`: a two-element list with
status filter `"confirmed"`, keeping the matching reservation. -/
theorem filter_reservations_conjunctive_witness :
    (shapeReservation exampleReservation) ∈
      filterReservations
        [shapeReservation exampleReservation,
          shapeReservation { exampleReservation with status := "cancelled", id := .str "r2" }]
        ⟨none, none, none, some "confirmed", none⟩ ∧
    0 < 1 := by
  have h := (filter_reservations_conjunctive
    [shapeReservation exampleReservation,
      shapeReservation { exampleReservation with status := "cancelled", id := .str "r2" }]
    ⟨none, none, none, some "confirmed", none⟩
    (shapeReservation exampleReservation)).1
  refine ⟨h.mpr ⟨by simp, ?_, ?_, ?_, ?_, ?_⟩, Nat.zero_lt_one⟩
  · intro hc
    simp [truthyStr] at hc
  · intro d hd
    simp at hd
  · intro d hd
    simp at hd
  · intro _
    rfl
  · intro hc
    simp [truthyStr] at hc

/-! ## Pagination (src/unnamed/part_001, `paginateResults`, lines 467-480) -/

/-- Accumulate a list of decimal digits into a natural number. -/
def digitsToNat (ds : List Char) : Nat :=
  ds.foldl (fun acc c => acc * 10 + (c.toNat - 48)) 0

/-- Model of JavaScript `parseInt(s)` (decimal form): skip leading
whitespace, read an optional sign and then a maximal run of leading decimal
digits; `none` when no digit is found (`NaN`).  The automatic-hexadecimal
`0x` form of `parseInt` is not modelled; no query below exercises it. -/
def jsParseInt (s : String) : Option Int :=
  let cs := s.data.dropWhile Char.isWhitespace
  match cs with
  | '-' :: rest =>
      match rest.takeWhile Char.isDigit with
      | [] => none
      | ds => some (-(digitsToNat ds : Int))
  | '+' :: rest =>
      match rest.takeWhile Char.isDigit with
      | [] => none
      | ds => some (digitsToNat ds : Int)
  | _ =>
      match cs.takeWhile Char.isDigit with
      | [] => none
      | ds => some (digitsToNat ds : Int)

/-- JavaScript `v || d` for a parsed number `v`: `NaN` (`none`) and `0` are
falsy and give the default. -/
def jsOrInt (v : Option Int) (d : Int) : Int :=
  match v with
  | some n => if n = 0 then d else n
  | none => d

/-- JavaScript `Array.prototype.slice(start, stop)` with the standard
negative-index and clamping semantics, for integral arguments. -/
def jsSlice {α : Type} (l : List α) (start stop : Int) : List α :=
  let len : Int := l.length
  let s := if start < 0 then max (len + start) 0 else min start len
  let e := if stop < 0 then max (len + stop) 0 else min stop len
  (l.drop s.toNat).take (e - s).toNat

/-- The `meta` object returned by `paginateResults`. -/
structure PageMeta where
  total : Nat
  limit : Int
  offset : Int
  hasMore : Bool
deriving Repr, DecidableEq

/-- The `{ items, meta }` value returned by `paginateResults`. -/
structure Paginated (α : Type) where
  items : List α
  meta : PageMeta
deriving Repr

/-- `paginateResults` (part_001 lines 467-480):
`limit = parseInt(query.limit) || 10`, `offset = parseInt(query.offset) || 0`,
items are `items.slice(offset, offset + limit)` and
`meta = { total, limit, offset, hasMore: offset + limit < total }`. -/
def paginateResults {α : Type} (items : List α)
    (qlimit qoffset : Option String) : Paginated α :=
  let limit := jsOrInt (qlimit.bind jsParseInt) 10
  let offset := jsOrInt (qoffset.bind jsParseInt) 0
  { items := jsSlice items offset (offset + limit)
    meta := { total := items.length
              limit := limit
              offset := offset
              hasMore := decide (offset + limit < (items.length : Int)) } }

/-- The reservations-route fallback body (part_001 lines 238-247): the
shaped sample reservations are filtered first, then paginated. -/
def reservationsFallback (sample : List SampleReservation)
    (q : ReservationsQuery) (qlimit qoffset : Option String) :
    Paginated ApiReservation :=
  paginateResults (filterReservations (sample.map shapeReservation) q)
    qlimit qoffset

/-- C7 counterexample: the claim says limit is "parsed as an integer with
non-numeric values replaced by the default", but the numeric query value
`"0"` parses to the integer 0 and is nevertheless replaced by the default:
on 25 items with `limit="0"` the code returns `meta.limit = 10` and 10
items, not `meta.limit = 0` and 0 items as the claim's parsing rule
requires. -/
theorem pagination_limit_zero_counterexample :
    jsParseInt "0" = some 0 ∧
    (paginateResults (List.range 25) (some "0") none).meta.limit = 10 ∧
    (paginateResults (List.range 25) (some "0") none).items.length = 10 := by
  refine ⟨rfl, rfl, rfl⟩

/-- `jsSlice l offset (offset + limit)` with nonnegative arguments is
drop-then-take. -/
theorem jsSlice_nonneg {α : Type} (l : List α) (offset limit : Int)
    (hoff : 0 ≤ offset) (hlim : 0 ≤ limit) :
    jsSlice l offset (offset + limit) =
      (l.drop offset.toNat).take limit.toNat := by
  unfold jsSlice
  dsimp only
  rw [if_neg (not_lt.mpr hoff), if_neg (by omega : ¬(offset + limit < (0:Int)))]
  have e1 : (min offset ((l.length : Int))).toNat = min offset.toNat l.length := by
    omega
  have e2 : ((min (offset + limit) ((l.length : Int))) - min offset ((l.length : Int))).toNat
      = min (offset.toNat + limit.toNat) l.length - min offset.toNat l.length := by
    omega
  rw [e1, e2]
  rcases le_or_lt offset.toNat l.length with h | h
  · rw [Nat.min_eq_left h, List.take_eq_take, List.length_drop]
    omega
  · have hd1 : l.drop (min offset.toNat l.length) = [] :=
      List.drop_eq_nil_of_le (by omega)
    have hd2 : l.drop offset.toNat = [] := List.drop_eq_nil_of_le (by omega)
    rw [hd1, hd2]
    simp

/-- C7 (amended): fallback pagination semantics.  `limit` and `offset` are
parsed as integers, with values that are non-numeric *or parse to 0*
replaced by the defaults 10 and 0; the items are
`slice(offset, offset + limit)` of the filtered list — for nonnegative
parameters, drop `offset` then take `limit`; the meta object carries
`total` = filtered length, the effective `limit` and `offset`, and
`hasMore = (offset + limit < total)`; filtering happens before pagination
(`meta.total` counts the filtered list), and 25 filtered reservations with
`limit=10&offset=20` give 5 items and `hasMore = false`. -/
theorem pagination_semantics {α : Type} (items : List α)
    (qlimit qoffset : Option String) :
    (paginateResults items qlimit qoffset).meta.total = items.length ∧
    (qlimit.bind jsParseInt = none →
      (paginateResults items qlimit qoffset).meta.limit = 10) ∧
    (qoffset.bind jsParseInt = none →
      (paginateResults items qlimit qoffset).meta.offset = 0) ∧
    (∀ n : Int, qlimit.bind jsParseInt = some n →
      (paginateResults items qlimit qoffset).meta.limit =
        (if n = 0 then 10 else n)) ∧
    (∀ n : Int, qoffset.bind jsParseInt = some n →
      (paginateResults items qlimit qoffset).meta.offset =
        (if n = 0 then 0 else n)) ∧
    ((paginateResults items qlimit qoffset).meta.hasMore = true ↔
      (paginateResults items qlimit qoffset).meta.offset +
        (paginateResults items qlimit qoffset).meta.limit <
          (items.length : Int)) ∧
    (∀ limit offset : Int,
      (paginateResults items qlimit qoffset).meta.limit = limit →
      (paginateResults items qlimit qoffset).meta.offset = offset →
      0 ≤ offset → 0 ≤ limit →
      (paginateResults items qlimit qoffset).items =
        (items.drop offset.toNat).take limit.toNat) ∧
    (∀ (sample : List SampleReservation) (q : ReservationsQuery),
      (reservationsFallback sample q qlimit qoffset).meta.total =
        (filterReservations (sample.map shapeReservation) q).length) ∧
    ((paginateResults (List.range 25) (some "10") (some "20")).items.length = 5 ∧
      (paginateResults (List.range 25) (some "10") (some "20")).meta.hasMore = false ∧
      (paginateResults (List.range 25) (some "10") (some "20")).meta.total = 25) := by
  refine ⟨rfl, ?_, ?_, ?_, ?_, ?_, ?_, ?_, rfl, rfl, rfl⟩
  · intro h
    show jsOrInt (qlimit.bind jsParseInt) 10 = 10
    rw [h]
    rfl
  · intro h
    show jsOrInt (qoffset.bind jsParseInt) 0 = 0
    rw [h]
    rfl
  · intro n h
    show jsOrInt (qlimit.bind jsParseInt) 10 = _
    rw [h]
    rfl
  · intro n h
    show jsOrInt (qoffset.bind jsParseInt) 0 = _
    rw [h]
    rfl
  · show decide (_ < _) = true ↔ _
    rw [decide_eq_true_eq]
    exact Iff.rfl
  · intro limit offset hl ho hoff hlim
    have hl' : jsOrInt (qlimit.bind jsParseInt) 10 = limit := hl
    have ho' : jsOrInt (qoffset.bind jsParseInt) 0 = offset := ho
    show jsSlice items (jsOrInt (qoffset.bind jsParseInt) 0)
        (jsOrInt (qoffset.bind jsParseInt) 0 + jsOrInt (qlimit.bind jsParseInt) 10) = _
    rw [hl', ho']
    exact jsSlice_nonneg items offset limit hoff hlim
  · intro sample q
    rfl

/-- Witness for `pagination_semantics`: 25 items, `limit="10"`,
`offset="20"`. -/
theorem pagination_semantics_witness :
    (List.range 25 : List Nat).length = 25 ∧
    (paginateResults (List.range 25) (some "10") (some "20")).meta.limit = 10 ∧
    (paginateResults (List.range 25) (some "10") (some "20")).meta.offset = 20 ∧
    (paginateResults (List.range 25) (some "10") (some "20")).items =
      ((List.range 25).drop 20).take 10 ∧
    (paginateResults (List.range 25) (some "10") (some "20")).items.length = 5 := by
  have h := pagination_semantics (List.range 25) (some "10") (some "20")
  refine ⟨by decide, h.2.2.2.1 10 rfl, h.2.2.2.2.1 20 rfl, ?_, h.2.2.2.2.2.2.2.2.1⟩
  have := h.2.2.2.2.2.2.1 10 20 rfl rfl (by decide) (by decide)
  simpa using this

/-! ## Calendar route (src/unnamed/part_001, `router.get('/calendar')`,
lines 297-313) -/

/-- Response of a route handler: `res.json(data)`,
`res.status(s).json({ error: { message } })`, or `next(error)`. -/
inductive RouteResponse where
  | jsonOk (body : String)
  | jsonError (status : Nat) (message : String)
  | nextError (message : String)
deriving Repr, DecidableEq

/-- The `/calendar` handler (lines 297-313): if any of `listingId`,
`startDate`, `endDate` is falsy, return 400 naming the required parameters
and perform no vendor call (the boolean records whether `makeApiRequest`
— and with it token acquisition — ran); otherwise forward the vendor
outcome, passing errors to `next` (no fallback). -/
def calendarHandler (listingId startDate endDate : Option String)
    (vendor : Except String String) : RouteResponse × Bool :=
  if !(truthyStr listingId) || !(truthyStr startDate) || !(truthyStr endDate) then
    (.jsonError 400 "Missing required parameters: listingId, startDate, endDate",
      false)
  else
    match vendor with
    | .ok data => (.jsonOk data, true)
    | .error e => (.nextError e, true)

/-- C8: validation before vendor call on `GET /api/calendar`.  Whenever any
of `listingId`, `startDate`, `endDate` is missing, the handler answers
HTTP 400 with the message naming the missing parameters, and no vendor
call (hence no token acquisition or outbound request) is performed. -/
theorem calendar_validation_before_call
    (listingId startDate endDate : Option String)
    (vendor : Except String String)
    (h : listingId = none ∨ startDate = none ∨ endDate = none) :
    calendarHandler listingId startDate endDate vendor =
      (.jsonError 400 "Missing required parameters: listingId, startDate, endDate",
        false) := by
  have hcond : (!(truthyStr listingId) || !(truthyStr startDate) ||
      !(truthyStr endDate)) = true := by
    rcases h with h | h | h <;> subst h <;> simp [truthyStr]
  unfold calendarHandler
  rw [hcond]
  simp

/-- Witness for `calendar_validation_before_call`: `listingId` missing. -/
theorem calendar_validation_before_call_witness :
    ((none : Option String) = none ∨ (some "2024-01-01" : Option String) = none ∨
      (some "2024-01-31" : Option String) = none) ∧
    calendarHandler none (some "2024-01-01") (some "2024-01-31") (.ok "body") =
      (.jsonError 400 "Missing required parameters: listingId, startDate, endDate",
        false) :=
  ⟨Or.inl rfl,
    calendar_validation_before_call none (some "2024-01-01") (some "2024-01-31")
      (.ok "body") (Or.inl rfl)⟩

/-! ## Login route (src/routes — src/unnamed/part_000, lines 14-55 — and
src/models/users.js) -/

/-- A stored user record of `data/users.json` (src/models/users.js). -/
structure StoredUser where
  id : Nat
  email : String
  passwordHash : String
  passwordSalt : String
  name : String
  role : String
  userId : Option String
deriving Repr, DecidableEq

/-- A user record with the sensitive fields stripped
(`const { passwordHash, passwordSalt, ...safeUser } = user`). -/
structure SafeUser where
  id : Nat
  email : String
  name : String
  role : String
  userId : Option String
deriving Repr, DecidableEq

/-- Strip `passwordHash` and `passwordSalt` from a stored user. -/
def stripSensitive (u : StoredUser) : SafeUser :=
  { id := u.id, email := u.email, name := u.name, role := u.role
    userId := u.userId }

/-- `findByEmail` (users.js lines 52-55): case-insensitive email lookup
(`user.email.toLowerCase() === email.toLowerCase()`). -/
def findByEmail (users : List StoredUser) (email : String) : Option StoredUser :=
  users.find? (fun u => lowerData u.email == lowerData email)

/-- `authenticate` (users.js lines 79-90) as written in the source: the
password check (`verifyPassword`) is commented out, so the `_password`
argument is ignored; a found user is always returned stripped, and a
missing user makes the destructuring of `null` throw (`.error`). -/
def authenticate (users : List StoredUser) (email : String)
    (_password : String) : Except Unit (Option SafeUser) :=
  match findByEmail users email with
  | none => .error ()
  | some u => .ok (some (stripSensitive u))

/-- Result of the login route: HTTP 200 with the user and a signed token,
or an error status with a message. -/
inductive LoginResult where
  | success (user : SafeUser)
  | failure (status : Nat) (message : String)
deriving Repr, DecidableEq

/-- The `POST /api/auth/login` handler (part_000 lines 14-55): 400 when
email or password is falsy; 401 when `authenticate` returns a null user;
200 with the user and token on success; 500 when `authenticate` throws. -/
def loginHandler (users : List StoredUser)
    (email password : Option String) : LoginResult :=
  if !(truthyStr email) || !(truthyStr password) then
    .failure 400 "Email and password are required"
  else
    match authenticate users (email.getD "") (password.getD "") with
    | .error _ => .failure 500 "Server error occurred during login"
    | .ok none => .failure 401 "Invalid email or password"
    | .ok (some u) => .success u

/-- C9: the login route as implemented can never answer HTTP 401, because
`authenticate` has its credential check commented out: (1) no input
whatsoever produces a 401 response; (2) the outcome is independent of the
password — any password succeeds against a stored email; (3) an email
matching no stored user yields HTTP 500 (null destructuring throws), not
401.  This contradicts the claimed `{user, token}`-or-401 contract. -/
theorem login_never_unauthorized (users : List StoredUser)
    (email password : Option String) :
    (∀ m, loginHandler users email password ≠ .failure 401 m) ∧
    (∀ p1 p2 : Option String, truthyStr p1 = true → truthyStr p2 = true →
      loginHandler users email p1 = loginHandler users email p2) ∧
    (truthyStr email = true → truthyStr password = true →
      findByEmail users (email.getD "") = none →
      loginHandler users email password =
        .failure 500 "Server error occurred during login") := by
  refine ⟨?_, ?_, ?_⟩
  · intro m
    unfold loginHandler
    split
    · simp
    · unfold authenticate
      rcases hf : findByEmail users (email.getD "") with _ | u
      · simp
      · simp
  · intro p1 p2 h1 h2
    unfold loginHandler
    rw [h1, h2]
    have hpw : authenticate users (email.getD "") (p1.getD "") =
        authenticate users (email.getD "") (p2.getD "") := rfl
    rw [hpw]
  · intro he hp hf
    unfold loginHandler
    rw [he, hp]
    simp only [Bool.not_true, Bool.or_false, Bool.false_or]
    unfold authenticate
    rw [hf]
    rfl

/-- Witness for `login_never_unauthorized`: one stored user, a wrong and a
right password give the same 200 response, and an unknown email gives 500. -/
theorem login_never_unauthorized_witness :
    truthyStr (some "wrong-password") = true ∧
    truthyStr (some "correct-password") = true ∧
    loginHandler [⟨1, "owner@example.com", "hash", "salt", "Owner", "user", none⟩]
        (some "owner@example.com") (some "wrong-password") =
      loginHandler [⟨1, "owner@example.com", "hash", "salt", "Owner", "user", none⟩]
        (some "owner@example.com") (some "correct-password") ∧
    loginHandler [⟨1, "owner@example.com", "hash", "salt", "Owner", "user", none⟩]
        (some "nobody@example.com") (some "pw") =
      .failure 500 "Server error occurred during login" ∧
    (∀ m, loginHandler [⟨1, "owner@example.com", "hash", "salt", "Owner", "user", none⟩]
        (some "owner@example.com") (some "wrong-password") ≠ .failure 401 m) := by
  have h1 := login_never_unauthorized
    [⟨1, "owner@example.com", "hash", "salt", "Owner", "user", none⟩]
    (some "owner@example.com") (some "wrong-password")
  have h2 := login_never_unauthorized
    [⟨1, "owner@example.com", "hash", "salt", "Owner", "user", none⟩]
    (some "nobody@example.com") (some "pw")
  refine ⟨rfl, rfl, ?_, ?_, h1.1⟩
  · exact h1.2.1 (some "wrong-password") (some "correct-password") rfl rfl
  · exact h2.2.2 rfl rfl (by decide)

/-! ## Fallback by-id lookups (src/unnamed/part_001, lines 178-199 and
256-294) -/

/-- Result of a fallback by-id lookup: the found record or a 404 with the
route's message. -/
inductive ByIdResponse (α : Type) where
  | found (record : α)
  | notFound (message : String)
deriving Repr

/-- The `/listings/:id` fallback (lines 186-198):
`sampleData.find(p => p.id === req.params.id)`; the route parameter is
always a string. -/
def listingByIdFallback (props : List SampleProperty) (paramId : String) :
    ByIdResponse SampleProperty :=
  match props.find? (fun p => jsStrictEq p.id (.str paramId)) with
  | some p => .found p
  | none => .notFound "Listing not found"

/-- The `/reservations/:id` fallback (lines 264-289):
`sampleData.find(r => r.id === req.params.id)`, shaping the found record. -/
def reservationByIdFallback (rs : List SampleReservation) (paramId : String) :
    ByIdResponse ApiReservation :=
  match rs.find? (fun r => jsStrictEq r.id (.str paramId)) with
  | some r => .found (shapeReservation r)
  | none => .notFound "Reservation not found"

/-- C10: the fallback by-id lookups compare ids with strict equality
against the (string) route parameter, so (1) a numeric stored id never
matches any parameter string, and (2) when every sample record's id is a
non-string, both by-id fallbacks answer 404 with their respective
messages for every parameter — even when the record is present. -/
theorem fallback_by_id_strict_equality (props : List SampleProperty)
    (rs : List SampleReservation) (paramId : String) :
    (∀ (v : JsVal) (n : Int) (s : String), v = .num n →
      jsStrictEq v (.str s) = false) ∧
    ((∀ p ∈ props, p.id.isStr = false) →
      listingByIdFallback props paramId = .notFound "Listing not found") ∧
    ((∀ r ∈ rs, r.id.isStr = false) →
      reservationByIdFallback rs paramId = .notFound "Reservation not found") := by
  refine ⟨?_, ?_, ?_⟩
  · intro v n s hv
    subst hv
    rfl
  · intro h
    unfold listingByIdFallback
    have hnone : props.find? (fun p => jsStrictEq p.id (.str paramId)) = none := by
      rw [List.find?_eq_none]
      intro p hp
      have hns := h p hp
      rcases hid : p.id with s' | n'
      · rw [hid] at hns
        simp [JsVal.isStr] at hns
      · simp [jsStrictEq]
    rw [hnone]
  · intro h
    unfold reservationByIdFallback
    have hnone : rs.find? (fun r => jsStrictEq r.id (.str paramId)) = none := by
      rw [List.find?_eq_none]
      intro r hr
      have hns := h r hr
      rcases hid : r.id with s' | n'
      · rw [hid] at hns
        simp [JsVal.isStr] at hns
      · simp [jsStrictEq]
    rw [hnone]

/-- Witness for `fallback_by_id_strict_equality`: a sample listing with
numeric id 7 and a sample reservation with numeric id 3 are invisible to
lookups with parameter `"7"` / `"3"`. -/
theorem fallback_by_id_strict_equality_witness :
    jsStrictEq (JsVal.num 7) (JsVal.str "7") = false ∧
    listingByIdFallback [⟨JsVal.num 7, "Cabin", none⟩] "7" =
      .notFound "Listing not found" ∧
    reservationByIdFallback [{ exampleReservation with id := JsVal.num 3 }] "3" =
      .notFound "Reservation not found" := by
  have h := fallback_by_id_strict_equality [⟨JsVal.num 7, "Cabin", none⟩]
    [{ exampleReservation with id := JsVal.num 3 }] "7"
  have h' := fallback_by_id_strict_equality ([] : List SampleProperty)
    [{ exampleReservation with id := JsVal.num 3 }] "3"
  refine ⟨h.1 (JsVal.num 7) 7 "7" rfl, ?_, ?_⟩
  · refine h.2.1 ?_
    intro p hp
    simp at hp
    rw [hp]
    rfl
  · refine h'.2.2 ?_
    intro r hr
    simp at hr
    rw [hr]
    rfl

end OwnerPortal
